import Mathlib

/-!
Shallow embedding of the company/employee CRUD service
(src/converted_file.py, src/generated_file.py, src/input.py, src/script.py).

All four variants declare the same two tables.  A table row is embedded as a
structure, the relational store as lists of rows plus the autoincrement
counters of the two integer primary keys, and each HTTP handler as a pure
function from the store and the parsed request to a response (and, for the
mutating handlers, the new store).  Dates are carried as their ISO-8601
wire strings, decimals as rationals.  `raise HTTPException(...)` becomes the
`Except.error` branch; the successful branch carries the HTTP status code
declared on the route decorator (FastAPI's default being 200 when the
decorator sets no `status_code`).
-/

/-- `fastapi.HTTPException(status_code=..., detail=...)`. -/
structure HTTPException where
  status_code : Nat
  detail : String
  deriving DecidableEq

/-- A row of the `company` table (identical columns in all four files):
id (integer primary key, autoincrement), name, registration_number
(nullable), founded_date (nullable), is_active. -/
structure Company where
  id : Nat
  name : String
  registration_number : Option String
  founded_date : Option String
  is_active : Bool
  deriving DecidableEq

/-- A row of the `employee` table (identical columns in all four files):
id (integer primary key, autoincrement), company_id (foreign key to
company.id), first_name, last_name, email, hire_date, salary
(Numeric(12,2), embedded as a rational), is_active. -/
structure Employee where
  id : Nat
  company_id : Nat
  first_name : String
  last_name : String
  email : String
  hire_date : String
  salary : Rat
  is_active : Bool
  deriving DecidableEq

/-- The relational store: the two tables in insertion order, plus the next
value of each autoincrement primary key. -/
structure DB where
  companies : List Company
  employees : List Employee
  next_company_id : Nat
  next_employee_id : Nat
  deriving DecidableEq

/-- `db.query(Company).filter(Company.id == company_id).first()`. -/
def findCompany (db : DB) (cid : Nat) : Option Company :=
  db.companies.find? (fun c => c.id == cid)

/-- `db.query(Employee).filter(Employee.id == employee_id).first()`. -/
def findEmployee (db : DB) (eid : Nat) : Option Employee :=
  db.employees.find? (fun e => e.id == eid)

/-- Referential integrity: every stored employee's company_id references a
stored company. -/
def DB.refIntegrity (db : DB) : Prop :=
  ∀ e ∈ db.employees, ∃ c ∈ db.companies, c.id = e.company_id

/-- The JSON body of a company-creation request; `none` marks an omitted
field. -/
structure CompanyCreateReq where
  name : String
  registration_number : Option String
  founded_date : Option String
  is_active : Option Bool
  deriving DecidableEq

/-- The `CompanyCreate` pydantic schema after validation/defaulting; its
declared defaults (identical in all four files) are
`registration_number = None`, `founded_date = None`, `is_active = True`. -/
structure CompanyCreate where
  name : String
  registration_number : Option String
  founded_date : Option String
  is_active : Bool
  deriving DecidableEq

/-- Parsing a request body into `CompanyCreate`: pydantic fills the declared
default for each omitted field. -/
def parseCompanyCreate (r : CompanyCreateReq) : CompanyCreate :=
  { name := r.name
    registration_number := r.registration_number
    founded_date := r.founded_date
    is_active := r.is_active.getD true }

/-- The JSON body of an employee-creation request; `none` marks an omitted
field. -/
structure EmployeeCreateReq where
  company_id : Nat
  first_name : String
  last_name : String
  email : String
  hire_date : String
  salary : Option Rat
  is_active : Option Bool
  deriving DecidableEq

/-- The `EmployeeCreate` pydantic schema after validation/defaulting; its
declared defaults (identical in all four files) are `salary = 0.00`,
`is_active = True`. -/
structure EmployeeCreate where
  company_id : Nat
  first_name : String
  last_name : String
  email : String
  hire_date : String
  salary : Rat
  is_active : Bool
  deriving DecidableEq

/-- Parsing a request body into `EmployeeCreate`: pydantic fills the declared
default (`salary = 0.00`, `is_active = True`) for each omitted field. -/
def parseEmployeeCreate (r : EmployeeCreateReq) : EmployeeCreate :=
  { company_id := r.company_id
    first_name := r.first_name
    last_name := r.last_name
    email := r.email
    hire_date := r.hire_date
    salary := r.salary.getD 0
    is_active := r.is_active.getD true }

/-- The `CompanyUpdate` schema of generated_file.py and input.py: it inherits
`CompanyBase`, so `name` is required while the remaining fields are optional;
`dict(exclude_unset=True)` keeps exactly the supplied fields (`none` marks an
omitted field). -/
structure CompanyUpdate where
  name : String
  registration_number : Option String
  founded_date : Option String
  is_active : Option Bool
  deriving DecidableEq

/-- The `setattr` loop of `update_company` over `dict(exclude_unset=True)`:
the required `name` is always applied; each supplied optional field
overwrites the column, and each omitted one is left untouched. -/
def applyCompanyUpdate (u : CompanyUpdate) (c : Company) : Company :=
  { c with
    name := u.name
    registration_number :=
      match u.registration_number with
      | some v => some v
      | none => c.registration_number
    founded_date :=
      match u.founded_date with
      | some v => some v
      | none => c.founded_date
    is_active := u.is_active.getD c.is_active }

/-- The `EmployeeUpdate` schema of input.py: every field optional, and no
`company_id` field at all. -/
structure EmployeeUpdateIN where
  first_name : Option String
  last_name : Option String
  email : Option String
  hire_date : Option String
  salary : Option Rat
  is_active : Option Bool
  deriving DecidableEq

/-- The `setattr` loop of input.py's `update_employee`: each supplied field
overwrites the column, each omitted one is left untouched. -/
def applyEmployeeUpdateIN (u : EmployeeUpdateIN) (e : Employee) : Employee :=
  { e with
    first_name := u.first_name.getD e.first_name
    last_name := u.last_name.getD e.last_name
    email := u.email.getD e.email
    hire_date := u.hire_date.getD e.hire_date
    salary := u.salary.getD e.salary
    is_active := u.is_active.getD e.is_active }

/-- The `EmployeeUpdate` schema of generated_file.py: every field optional,
including `company_id`. -/
structure EmployeeUpdateGF where
  company_id : Option Nat
  first_name : Option String
  last_name : Option String
  email : Option String
  hire_date : Option String
  salary : Option Rat
  is_active : Option Bool
  deriving DecidableEq

/-- The `setattr` loop of generated_file.py's `update_employee`. -/
def applyEmployeeUpdateGF (u : EmployeeUpdateGF) (e : Employee) : Employee :=
  { e with
    company_id := u.company_id.getD e.company_id
    first_name := u.first_name.getD e.first_name
    last_name := u.last_name.getD e.last_name
    email := u.email.getD e.email
    hire_date := u.hire_date.getD e.hire_date
    salary := u.salary.getD e.salary
    is_active := u.is_active.getD e.is_active }

namespace ConvertedFile

/-! Handlers of src/converted_file.py.  None of its route decorators set a
`status_code`, so every successful response uses FastAPI's default 200. -/

/-- `POST /companies/` (create_company): persist and return the record with
the generated id. -/
def create_company (db : DB) (r : CompanyCreateReq) : (Nat × Company) × DB :=
  let inp := parseCompanyCreate r
  let c : Company :=
    { id := db.next_company_id
      name := inp.name
      registration_number := inp.registration_number
      founded_date := inp.founded_date
      is_active := inp.is_active }
  ((200, c),
   { db with
     companies := db.companies ++ [c]
     next_company_id := db.next_company_id + 1 })

/-- `GET /companies/` (list_companies):
`db.query(Company).offset(skip).limit(limit).all()`. -/
def list_companies (db : DB) (skip limit : Nat) : List Company :=
  (db.companies.drop skip).take limit

/-- `GET /companies/` with no query parameters: `skip` and `limit` take the
defaults 0 and 10 declared in the handler signature. -/
def list_companies_no_params (db : DB) : List Company :=
  list_companies db 0 10

/-- `GET /companies/{company_id}` (get_company). -/
def get_company (db : DB) (cid : Nat) : Except HTTPException (Nat × Company) :=
  match findCompany db cid with
  | none => .error ⟨404, "Company not found"⟩
  | some c => .ok (200, c)

/-- `DELETE /companies/{company_id}` (delete_company).  The
`Company.employees` relationship carries `cascade="all, delete"`, so
`db.delete(company)` also deletes every employee row whose company_id
references the deleted company. -/
def delete_company (db : DB) (cid : Nat) :
    Except HTTPException (Nat × String) × DB :=
  match findCompany db cid with
  | none => (.error ⟨404, "Company not found"⟩, db)
  | some _ =>
    (.ok (200, "Company deleted"),
     { db with
       companies := db.companies.filter (fun c => c.id != cid)
       employees := db.employees.filter (fun e => e.company_id != cid) })

/-- `POST /employees/` (create_employee): checks that the associated company
exists, raising 404 otherwise, then persists and returns the record. -/
def create_employee (db : DB) (r : EmployeeCreateReq) :
    Except HTTPException (Nat × Employee) × DB :=
  let inp := parseEmployeeCreate r
  match findCompany db inp.company_id with
  | none => (.error ⟨404, "Associated company not found"⟩, db)
  | some _ =>
    let e : Employee :=
      { id := db.next_employee_id
        company_id := inp.company_id
        first_name := inp.first_name
        last_name := inp.last_name
        email := inp.email
        hire_date := inp.hire_date
        salary := inp.salary
        is_active := inp.is_active }
    (.ok (200, e),
     { db with
       employees := db.employees ++ [e]
       next_employee_id := db.next_employee_id + 1 })

/-- `GET /employees/` (list_employees). -/
def list_employees (db : DB) (skip limit : Nat) : List Employee :=
  (db.employees.drop skip).take limit

/-- `GET /employees/` with no query parameters: the declared defaults are
`skip = 0`, `limit = 10`. -/
def list_employees_no_params (db : DB) : List Employee :=
  list_employees db 0 10

/-- `GET /employees/{employee_id}` (get_employee). -/
def get_employee (db : DB) (eid : Nat) : Except HTTPException (Nat × Employee) :=
  match findEmployee db eid with
  | none => .error ⟨404, "Employee not found"⟩
  | some e => .ok (200, e)

/-- `DELETE /employees/{employee_id}` (delete_employee). -/
def delete_employee (db : DB) (eid : Nat) :
    Except HTTPException (Nat × String) × DB :=
  match findEmployee db eid with
  | none => (.error ⟨404, "Employee not found"⟩, db)
  | some _ =>
    (.ok (200, "Employee deleted"),
     { db with employees := db.employees.filter (fun e => e.id != eid) })

end ConvertedFile

namespace GeneratedFile

/-! Handlers of src/generated_file.py (company_app.py / employee_app.py
routers).  The two POST routes declare `status_code=201`; every other route
uses the default 200. -/

/-- `GET /companies/` (read_companies):
`db.query(Company).offset(skip).limit(limit).all()`. -/
def read_companies (db : DB) (skip limit : Nat) : List Company :=
  (db.companies.drop skip).take limit

/-- `GET /companies/` with no query parameters: the declared defaults are
`skip = 0`, `limit = 100`. -/
def read_companies_no_params (db : DB) : List Company :=
  read_companies db 0 100

/-- `POST /companies/` (create_company), decorator `status_code=201`. -/
def create_company (db : DB) (r : CompanyCreateReq) : (Nat × Company) × DB :=
  let inp := parseCompanyCreate r
  let c : Company :=
    { id := db.next_company_id
      name := inp.name
      registration_number := inp.registration_number
      founded_date := inp.founded_date
      is_active := inp.is_active }
  ((201, c),
   { db with
     companies := db.companies ++ [c]
     next_company_id := db.next_company_id + 1 })

/-- `GET /companies/{company_id}` (get_company). -/
def get_company (db : DB) (cid : Nat) : Except HTTPException (Nat × Company) :=
  match findCompany db cid with
  | none => .error ⟨404, "Company not found"⟩
  | some c => .ok (200, c)

/-- `PUT /companies/{company_id}` (update_company): 404 when the id is
absent, otherwise applies `dict(exclude_unset=True)` via `setattr` and
commits the row with that primary key. -/
def update_company (db : DB) (cid : Nat) (u : CompanyUpdate) :
    Except HTTPException (Nat × Company) × DB :=
  match findCompany db cid with
  | none => (.error ⟨404, "Company not found"⟩, db)
  | some c =>
    let c2 := applyCompanyUpdate u c
    (.ok (200, c2),
     { db with
       companies := db.companies.map (fun x => if x.id == cid then c2 else x) })

/-- `GET /employees/` (read_employees). -/
def read_employees (db : DB) (skip limit : Nat) : List Employee :=
  (db.employees.drop skip).take limit

/-- `GET /employees/` with no query parameters: the declared defaults are
`skip = 0`, `limit = 100`. -/
def read_employees_no_params (db : DB) : List Employee :=
  read_employees db 0 100

/-- `POST /employees/` (create_employee), decorator `status_code=201`:
raises 400 when the referenced company does not exist, otherwise persists
and returns the record. -/
def create_employee (db : DB) (r : EmployeeCreateReq) :
    Except HTTPException (Nat × Employee) × DB :=
  let inp := parseEmployeeCreate r
  match findCompany db inp.company_id with
  | none => (.error ⟨400, "Company does not exist"⟩, db)
  | some _ =>
    let e : Employee :=
      { id := db.next_employee_id
        company_id := inp.company_id
        first_name := inp.first_name
        last_name := inp.last_name
        email := inp.email
        hire_date := inp.hire_date
        salary := inp.salary
        is_active := inp.is_active }
    (.ok (201, e),
     { db with
       employees := db.employees ++ [e]
       next_employee_id := db.next_employee_id + 1 })

/-- `GET /employees/{employee_id}` (get_employee). -/
def get_employee (db : DB) (eid : Nat) : Except HTTPException (Nat × Employee) :=
  match findEmployee db eid with
  | none => .error ⟨404, "Employee not found"⟩
  | some e => .ok (200, e)

/-- `PUT /employees/{employee_id}` (update_employee): first the 404 check on
the employee id; then, when `company_id` is among the supplied fields and is
not None, the 400 check that the referenced company exists; only then the
`setattr` loop applies the supplied fields. -/
def update_employee (db : DB) (eid : Nat) (u : EmployeeUpdateGF) :
    Except HTTPException (Nat × Employee) × DB :=
  match findEmployee db eid with
  | none => (.error ⟨404, "Employee not found"⟩, db)
  | some e =>
    match u.company_id with
    | some cid =>
      match findCompany db cid with
      | none => (.error ⟨400, "Referenced company does not exist"⟩, db)
      | some _ =>
        let e2 := applyEmployeeUpdateGF u e
        (.ok (200, e2),
         { db with
           employees := db.employees.map (fun x => if x.id == eid then e2 else x) })
    | none =>
      let e2 := applyEmployeeUpdateGF u e
      (.ok (200, e2),
       { db with
         employees := db.employees.map (fun x => if x.id == eid then e2 else x) })

end GeneratedFile

namespace InputFile

/-! Handlers of src/input.py (company_router.py / employee_router.py).
The POST routes declare `status_code=201`, the DELETE routes
`status_code=204`; every other route uses the default 200. -/

/-- `GET /companies/` (get_companies): `db.query(Company).all()`. -/
def get_companies (db : DB) : List Company :=
  db.companies

/-- `GET /companies/{company_id}` (get_company). -/
def get_company (db : DB) (cid : Nat) : Except HTTPException (Nat × Company) :=
  match findCompany db cid with
  | none => .error ⟨404, "Company not found"⟩
  | some c => .ok (200, c)

/-- `POST /companies/` (create_company), decorator
`status_code=HTTP_201_CREATED`. -/
def create_company (db : DB) (r : CompanyCreateReq) : (Nat × Company) × DB :=
  let inp := parseCompanyCreate r
  let c : Company :=
    { id := db.next_company_id
      name := inp.name
      registration_number := inp.registration_number
      founded_date := inp.founded_date
      is_active := inp.is_active }
  ((201, c),
   { db with
     companies := db.companies ++ [c]
     next_company_id := db.next_company_id + 1 })

/-- `PUT /companies/{company_id}` (update_company). -/
def update_company (db : DB) (cid : Nat) (u : CompanyUpdate) :
    Except HTTPException (Nat × Company) × DB :=
  match findCompany db cid with
  | none => (.error ⟨404, "Company not found"⟩, db)
  | some c =>
    let c2 := applyCompanyUpdate u c
    (.ok (200, c2),
     { db with
       companies := db.companies.map (fun x => if x.id == cid then c2 else x) })

/-- `DELETE /companies/{company_id}` (delete_company), decorator
`status_code=HTTP_204_NO_CONTENT`, no body.  The `Company.employees`
relationship carries `cascade="all, delete"`, so `db.delete(company)` also
deletes every employee row whose company_id references the deleted
company. -/
def delete_company (db : DB) (cid : Nat) :
    Except HTTPException (Nat × Unit) × DB :=
  match findCompany db cid with
  | none => (.error ⟨404, "Company not found"⟩, db)
  | some _ =>
    (.ok (204, ()),
     { db with
       companies := db.companies.filter (fun c => c.id != cid)
       employees := db.employees.filter (fun e => e.company_id != cid) })

/-- `GET /employees/` (get_employees): `db.query(Employee).all()`. -/
def get_employees (db : DB) : List Employee :=
  db.employees

/-- `GET /employees/{employee_id}` (get_employee). -/
def get_employee (db : DB) (eid : Nat) : Except HTTPException (Nat × Employee) :=
  match findEmployee db eid with
  | none => .error ⟨404, "Employee not found"⟩
  | some e => .ok (200, e)

/-- `POST /employees/` (create_employee), decorator
`status_code=HTTP_201_CREATED`.  The handler performs no application-level
check of `company_id`: it persists the row directly (the SQLite engine
configuration of this repository, see converted_file.py, does not turn on
foreign-key enforcement), so creation always succeeds. -/
def create_employee (db : DB) (r : EmployeeCreateReq) : (Nat × Employee) × DB :=
  let inp := parseEmployeeCreate r
  let e : Employee :=
    { id := db.next_employee_id
      company_id := inp.company_id
      first_name := inp.first_name
      last_name := inp.last_name
      email := inp.email
      hire_date := inp.hire_date
      salary := inp.salary
      is_active := inp.is_active }
  ((201, e),
   { db with
     employees := db.employees ++ [e]
     next_employee_id := db.next_employee_id + 1 })

/-- `PUT /employees/{employee_id}` (update_employee): 404 when the id is
absent, otherwise applies `dict(exclude_unset=True)` via `setattr`; the
schema has no `company_id` field. -/
def update_employee (db : DB) (eid : Nat) (u : EmployeeUpdateIN) :
    Except HTTPException (Nat × Employee) × DB :=
  match findEmployee db eid with
  | none => (.error ⟨404, "Employee not found"⟩, db)
  | some e =>
    let e2 := applyEmployeeUpdateIN u e
    (.ok (200, e2),
     { db with
       employees := db.employees.map (fun x => if x.id == eid then e2 else x) })

/-- `DELETE /employees/{employee_id}` (delete_employee), decorator
`status_code=HTTP_204_NO_CONTENT`. -/
def delete_employee (db : DB) (eid : Nat) :
    Except HTTPException (Nat × Unit) × DB :=
  match findEmployee db eid with
  | none => (.error ⟨404, "Employee not found"⟩, db)
  | some _ =>
    (.ok (204, ()),
     { db with employees := db.employees.filter (fun e => e.id != eid) })

end InputFile

namespace ScriptFile

/-! Handlers of src/script.py (company_router.py / employee_router.py).
Only create and list routes exist; no decorator sets a `status_code`, so
every successful response uses the default 200. -/

/-- `POST /companies/` (create_company). -/
def create_company (db : DB) (r : CompanyCreateReq) : (Nat × Company) × DB :=
  let inp := parseCompanyCreate r
  let c : Company :=
    { id := db.next_company_id
      name := inp.name
      registration_number := inp.registration_number
      founded_date := inp.founded_date
      is_active := inp.is_active }
  ((200, c),
   { db with
     companies := db.companies ++ [c]
     next_company_id := db.next_company_id + 1 })

/-- `GET /companies/` (get_companies): `db.query(Company).all()`. -/
def get_companies (db : DB) : List Company :=
  db.companies

/-- `POST /employees/` (create_employee): no application-level check of
`company_id`; persists and returns the record. -/
def create_employee (db : DB) (r : EmployeeCreateReq) : (Nat × Employee) × DB :=
  let inp := parseEmployeeCreate r
  let e : Employee :=
    { id := db.next_employee_id
      company_id := inp.company_id
      first_name := inp.first_name
      last_name := inp.last_name
      email := inp.email
      hire_date := inp.hire_date
      salary := inp.salary
      is_active := inp.is_active }
  ((200, e),
   { db with
     employees := db.employees ++ [e]
     next_employee_id := db.next_employee_id + 1 })

/-- `GET /employees/` (get_employees): `db.query(Employee).all()`. -/
def get_employees (db : DB) : List Employee :=
  db.employees

end ScriptFile

/-! Concrete sample rows, stores, and request bodies, used to instantiate the
theorems below on small inputs (cf. the worked example of the spec:
company Acme with registration number R1, employee A B hired 2020-01-01). -/

def acme : Company :=
  { id := 1, name := "Acme", registration_number := some "R1",
    founded_date := none, is_active := true }

def bcorp : Company :=
  { id := 2, name := "Bcorp", registration_number := none,
    founded_date := some "1999-12-31", is_active := true }

def emp1 : Employee :=
  { id := 1, company_id := 1, first_name := "A", last_name := "B",
    email := "a@b.com", hire_date := "2020-01-01", salary := 0,
    is_active := true }

def emp2 : Employee :=
  { id := 2, company_id := 2, first_name := "C", last_name := "D",
    email := "c@d.com", hire_date := "2021-05-05", salary := 100,
    is_active := true }

def emp3 : Employee :=
  { id := 3, company_id := 1, first_name := "E", last_name := "F",
    email := "e@f.com", hire_date := "2022-03-03", salary := 50,
    is_active := false }

/-- The store of a freshly created database: no rows, both autoincrement
counters at 1. -/
def dbEmpty : DB :=
  { companies := [], employees := [], next_company_id := 1,
    next_employee_id := 1 }

/-- A store with two companies and three employees (two of Acme, one of
Bcorp). -/
def dbSample : DB :=
  { companies := [acme, bcorp], employees := [emp1, emp2, emp3],
    next_company_id := 3, next_employee_id := 4 }

/-- A store with eleven companies and eleven employees, more than the
default page size 10. -/
def dbEleven : DB :=
  { companies := List.replicate 11 acme,
    employees := List.replicate 11 emp1,
    next_company_id := 12, next_employee_id := 12 }

def reqCompany : CompanyCreateReq :=
  { name := "Acme", registration_number := some "R1", founded_date := none,
    is_active := none }

/-- An employee-creation request that omits salary and is_active and
references company 1. -/
def reqEmployee : EmployeeCreateReq :=
  { company_id := 1, first_name := "A", last_name := "B",
    email := "a@b.com", hire_date := "2020-01-01", salary := none,
    is_active := none }

def updCompany : CompanyUpdate :=
  { name := "NewName", registration_number := none, founded_date := none,
    is_active := some false }

/-- A partial employee update supplying only first_name. -/
def updEmployeeIN : EmployeeUpdateIN :=
  { first_name := some "Z", last_name := none, email := none,
    hire_date := none, salary := none, is_active := none }

/-- A partial employee update whose company_id references the nonexistent
company 99. -/
def updEmployeeGF : EmployeeUpdateGF :=
  { company_id := some 99, first_name := some "Z", last_name := none,
    email := none, hire_date := none, salary := none, is_active := none }

/-! Helper lemmas about `List.find?` over the store operations. -/

/-- `find?` skips a prefix in which nothing matches. -/
theorem find?_append_of_none {α} {p : α → Bool} {l1 : List α} (l2 : List α)
    (h : l1.find? p = none) : (l1 ++ l2).find? p = l2.find? p := by
  induction l1 with
  | nil => rfl
  | cons a t ih =>
    cases hpa : p a with
    | true => simp [List.find?, hpa] at h
    | false =>
      simp only [List.find?, hpa] at h
      simpa only [List.cons_append, List.find?, hpa] using ih h

/-- Replacing, at every position that satisfies `p`, the element by a fixed
`e2` that itself satisfies `p` makes `find?` return `e2`, provided something
satisfied `p` before. -/
theorem find?_map_replace {α} {p : α → Bool} {e2 : α} (h2 : p e2 = true) :
    ∀ {l : List α} {e : α}, l.find? p = some e →
      (l.map (fun x => if p x then e2 else x)).find? p = some e2 := by
  intro l
  induction l with
  | nil => intro e h; cases h
  | cons a t ih =>
    intro e h
    cases hpa : p a with
    | true => simp [List.find?, hpa, h2]
    | false =>
      simp only [List.find?, hpa] at h
      simpa only [List.map_cons, hpa, if_neg, Bool.false_eq_true,
        not_false_eq_true, List.find?, ite_false] using ih h

/-- C1 (amended): In the converted_file and generated_file variants,
employee creation validates that the request's company_id references an
existing company: when none exists, the operation signals a client error
(404 resp. 400) and the store — in particular the employee table — is
unchanged; when it exists, the employee is persisted and the stored record
is returned.  (The input and script variants perform no such check; see the
counterexample.) -/
theorem employee_create_company_check_amended (db : DB) (r : EmployeeCreateReq) :
    (findCompany db r.company_id = none →
      ConvertedFile.create_employee db r =
        (.error ⟨404, "Associated company not found"⟩, db) ∧
      GeneratedFile.create_employee db r =
        (.error ⟨400, "Company does not exist"⟩, db)) ∧
    (∀ c, findCompany db r.company_id = some c →
      (∃ e, (ConvertedFile.create_employee db r).1 = .ok (200, e) ∧
        (ConvertedFile.create_employee db r).2.employees = db.employees ++ [e]) ∧
      (∃ e, (GeneratedFile.create_employee db r).1 = .ok (201, e) ∧
        (GeneratedFile.create_employee db r).2.employees = db.employees ++ [e])) := by
  constructor
  · intro h
    exact ⟨by simp [ConvertedFile.create_employee, parseEmployeeCreate, h],
           by simp [GeneratedFile.create_employee, parseEmployeeCreate, h]⟩
  · intro c hc
    constructor
    · refine ⟨{ id := db.next_employee_id, company_id := r.company_id,
                first_name := r.first_name, last_name := r.last_name,
                email := r.email, hire_date := r.hire_date,
                salary := r.salary.getD 0, is_active := r.is_active.getD true },
              ?_, ?_⟩ <;>
        simp [ConvertedFile.create_employee, parseEmployeeCreate, hc]
    · refine ⟨{ id := db.next_employee_id, company_id := r.company_id,
                first_name := r.first_name, last_name := r.last_name,
                email := r.email, hire_date := r.hire_date,
                salary := r.salary.getD 0, is_active := r.is_active.getD true },
              ?_, ?_⟩ <;>
        simp [GeneratedFile.create_employee, parseEmployeeCreate, hc]

/-- Witness for C1: on the sample stores, a creation referencing the missing
company is rejected with the store unchanged, and one referencing the
existing company Acme is persisted. -/
theorem employee_create_company_check_amended_witness :
    (ConvertedFile.create_employee dbEmpty reqEmployee =
      (.error ⟨404, "Associated company not found"⟩, dbEmpty)) ∧
    (∃ e, (ConvertedFile.create_employee dbSample reqEmployee).1 = .ok (200, e) ∧
      (ConvertedFile.create_employee dbSample reqEmployee).2.employees =
        dbSample.employees ++ [e]) :=
  ⟨((employee_create_company_check_amended dbEmpty reqEmployee).1 rfl).1,
   ((employee_create_company_check_amended dbSample reqEmployee).2 acme rfl).1⟩

/-- Counterexample for C1 as stated: input.py's create_employee performs no
company-existence check — on the empty store (no company with id 1 exists)
it signals no error (it returns 201) and persists an employee row. -/
theorem employee_create_company_check_counterexample :
    findCompany dbEmpty 1 = none ∧
    (InputFile.create_employee dbEmpty reqEmployee).1.1 = 201 ∧
    (InputFile.create_employee dbEmpty reqEmployee).2.employees.length = 1 := by
  decide

/-- C3: In the generated_file variant, an employee update whose payload
includes company_id re-validates that the referenced company exists before
applying any field: a missing employee id signals NotFound (404), and an
existing employee with a nonexistent referenced company signals a
validation error (400) with the store — hence the targeted employee
record — entirely unchanged. -/
theorem update_employee_revalidates_company (db : DB) (eid : Nat)
    (u : EmployeeUpdateGF) :
    (findEmployee db eid = none →
      GeneratedFile.update_employee db eid u =
        (.error ⟨404, "Employee not found"⟩, db)) ∧
    (∀ e cid, findEmployee db eid = some e → u.company_id = some cid →
      findCompany db cid = none →
      GeneratedFile.update_employee db eid u =
        (.error ⟨400, "Referenced company does not exist"⟩, db)) := by
  constructor
  · intro h
    simp [GeneratedFile.update_employee, h]
  · intro e cid he hu hc
    simp [GeneratedFile.update_employee, he, hu, hc]

/-- Witness for C3: updating the existing employee 1 with a payload whose
company_id references the nonexistent company 99 yields the 400 validation
error and leaves the sample store unchanged. -/
theorem update_employee_revalidates_company_witness :
    GeneratedFile.update_employee dbSample 1 updEmployeeGF =
      (.error ⟨400, "Referenced company does not exist"⟩, dbSample) :=
  (update_employee_revalidates_company dbSample 1 updEmployeeGF).2
    emp1 99 rfl rfl rfl

/-- C10: In the generated_file variant, when the targeted employee id is
absent and the payload's company_id also references a nonexistent company,
the update signals NotFound for the employee (404), not the 400 company
validation error: the employee-existence check runs first. -/
theorem update_employee_missing_employee_precedence (db : DB) (eid cid : Nat)
    (u : EmployeeUpdateGF) (he : findEmployee db eid = none)
    (_hu : u.company_id = some cid) (_hc : findCompany db cid = none) :
    GeneratedFile.update_employee db eid u =
      (.error ⟨404, "Employee not found"⟩, db) := by
  simp [GeneratedFile.update_employee, he]

/-- Witness for C10: employee 99 is absent from the sample store and the
payload references the equally absent company 99; the response is the
employee NotFound error. -/
theorem update_employee_missing_employee_precedence_witness :
    GeneratedFile.update_employee dbSample 99 updEmployeeGF =
      (.error ⟨404, "Employee not found"⟩, dbSample) :=
  update_employee_missing_employee_precedence dbSample 99 99 updEmployeeGF
    rfl rfl rfl

/-- C5: For an id absent from the store, every fetch, update, and delete
handler — on companies and on employees, across the variants that define
them — signals exactly NotFound (HTTP 404) and leaves the store
unchanged. -/
theorem missing_id_signals_not_found (db : DB) (i : Nat) :
    (findCompany db i = none →
      ∀ u : CompanyUpdate,
        InputFile.get_company db i = .error ⟨404, "Company not found"⟩ ∧
        InputFile.update_company db i u = (.error ⟨404, "Company not found"⟩, db) ∧
        InputFile.delete_company db i = (.error ⟨404, "Company not found"⟩, db) ∧
        ConvertedFile.get_company db i = .error ⟨404, "Company not found"⟩ ∧
        ConvertedFile.delete_company db i = (.error ⟨404, "Company not found"⟩, db) ∧
        GeneratedFile.get_company db i = .error ⟨404, "Company not found"⟩ ∧
        GeneratedFile.update_company db i u = (.error ⟨404, "Company not found"⟩, db)) ∧
    (findEmployee db i = none →
      ∀ (uin : EmployeeUpdateIN) (ugf : EmployeeUpdateGF),
        InputFile.get_employee db i = .error ⟨404, "Employee not found"⟩ ∧
        InputFile.update_employee db i uin = (.error ⟨404, "Employee not found"⟩, db) ∧
        InputFile.delete_employee db i = (.error ⟨404, "Employee not found"⟩, db) ∧
        ConvertedFile.get_employee db i = .error ⟨404, "Employee not found"⟩ ∧
        ConvertedFile.delete_employee db i = (.error ⟨404, "Employee not found"⟩, db) ∧
        GeneratedFile.get_employee db i = .error ⟨404, "Employee not found"⟩ ∧
        GeneratedFile.update_employee db i ugf = (.error ⟨404, "Employee not found"⟩, db)) := by
  constructor
  · intro h u
    exact ⟨by simp [InputFile.get_company, h],
           by simp [InputFile.update_company, h],
           by simp [InputFile.delete_company, h],
           by simp [ConvertedFile.get_company, h],
           by simp [ConvertedFile.delete_company, h],
           by simp [GeneratedFile.get_company, h],
           by simp [GeneratedFile.update_company, h]⟩
  · intro h uin ugf
    exact ⟨by simp [InputFile.get_employee, h],
           by simp [InputFile.update_employee, h],
           by simp [InputFile.delete_employee, h],
           by simp [ConvertedFile.get_employee, h],
           by simp [ConvertedFile.delete_employee, h],
           by simp [GeneratedFile.get_employee, h],
           by simp [GeneratedFile.update_employee, h]⟩

/-- Witness for C5: id 99 is absent from the sample store; updating company
99 and deleting employee 99 both yield 404 with the store unchanged. -/
theorem missing_id_signals_not_found_witness :
    InputFile.update_company dbSample 99 updCompany =
      (.error ⟨404, "Company not found"⟩, dbSample) ∧
    InputFile.delete_employee dbSample 99 =
      (.error ⟨404, "Employee not found"⟩, dbSample) :=
  ⟨((missing_id_signals_not_found dbSample 99).1 rfl updCompany).2.1,
   ((missing_id_signals_not_found dbSample 99).2 rfl updEmployeeIN updEmployeeGF).2.2.1⟩

/-- C4: In the input variant, updating an existing employee changes exactly
the supplied fields: the result record — returned to the caller and stored
under the same id — carries each supplied field's payload value and retains
the prior value of every omitted field (and of id and company_id, which the
schema cannot carry). -/
theorem update_employee_partial_frame (db : DB) (eid : Nat)
    (u : EmployeeUpdateIN) (e : Employee) (h : findEmployee db eid = some e) :
    ∃ e2,
      InputFile.update_employee db eid u =
        (.ok (200, e2),
         { db with
           employees := db.employees.map (fun x => if x.id == eid then e2 else x) }) ∧
      findEmployee (InputFile.update_employee db eid u).2 eid = some e2 ∧
      e2.id = e.id ∧
      e2.company_id = e.company_id ∧
      e2.first_name = u.first_name.getD e.first_name ∧
      e2.last_name = u.last_name.getD e.last_name ∧
      e2.email = u.email.getD e.email ∧
      e2.hire_date = u.hire_date.getD e.hire_date ∧
      e2.salary = u.salary.getD e.salary ∧
      e2.is_active = u.is_active.getD e.is_active := by
  refine ⟨applyEmployeeUpdateIN u e, ?_, ?_, rfl, rfl, rfl, rfl, rfl, rfl, rfl, rfl⟩
  · simp [InputFile.update_employee, h, applyEmployeeUpdateIN]
  · have hfind : db.employees.find? (fun x => x.id == eid) = some e := h
    have hid : ((fun x : Employee => x.id == eid) (applyEmployeeUpdateIN u e)) = true := by
      simpa [applyEmployeeUpdateIN] using List.find?_some hfind
    have hp := @find?_map_replace Employee (fun x => x.id == eid)
      (applyEmployeeUpdateIN u e) hid db.employees e hfind
    simp only [InputFile.update_employee, findEmployee, hfind]
    exact hp

/-- Witness for C4: updating employee 1 of the sample store with the payload
that supplies only first_name yields a record with the new first_name and
all prior values elsewhere. -/
theorem update_employee_partial_frame_witness :
    ∃ e2,
      InputFile.update_employee dbSample 1 updEmployeeIN =
        (.ok (200, e2),
         { dbSample with
           employees := dbSample.employees.map (fun x => if x.id == 1 then e2 else x) }) ∧
      findEmployee (InputFile.update_employee dbSample 1 updEmployeeIN).2 1 = some e2 ∧
      e2.id = emp1.id ∧
      e2.company_id = emp1.company_id ∧
      e2.first_name = updEmployeeIN.first_name.getD emp1.first_name ∧
      e2.last_name = updEmployeeIN.last_name.getD emp1.last_name ∧
      e2.email = updEmployeeIN.email.getD emp1.email ∧
      e2.hire_date = updEmployeeIN.hire_date.getD emp1.hire_date ∧
      e2.salary = updEmployeeIN.salary.getD emp1.salary ∧
      e2.is_active = updEmployeeIN.is_active.getD emp1.is_active :=
  update_employee_partial_frame dbSample 1 updEmployeeIN emp1 rfl

/-- C6 (amended): every successful create returns the created record with its
server-generated id; the generated_file and input variants return HTTP 201,
while the converted_file and script variants set no status code on the route
and return the framework default 200. -/
theorem create_status_amended (db : DB) (rc : CompanyCreateReq)
    (re : EmployeeCreateReq) :
    (GeneratedFile.create_company db rc).1.1 = 201 ∧
    (GeneratedFile.create_company db rc).1.2.id = db.next_company_id ∧
    (InputFile.create_company db rc).1.1 = 201 ∧
    (InputFile.create_company db rc).1.2.id = db.next_company_id ∧
    (InputFile.create_employee db re).1.1 = 201 ∧
    (InputFile.create_employee db re).1.2.id = db.next_employee_id ∧
    (∀ c, findCompany db re.company_id = some c →
      ∃ emp, (GeneratedFile.create_employee db re).1 = .ok (201, emp) ∧
        emp.id = db.next_employee_id) ∧
    (ConvertedFile.create_company db rc).1.1 = 200 ∧
    (ConvertedFile.create_company db rc).1.2.id = db.next_company_id ∧
    (ScriptFile.create_company db rc).1.1 = 200 ∧
    (ScriptFile.create_employee db re).1.1 = 200 ∧
    (∀ c, findCompany db re.company_id = some c →
      ∃ emp, (ConvertedFile.create_employee db re).1 = .ok (200, emp) ∧
        emp.id = db.next_employee_id) := by
  refine ⟨rfl, rfl, rfl, rfl, rfl, rfl, ?_, rfl, rfl, rfl, rfl, ?_⟩
  · intro c hc
    exact ⟨{ id := db.next_employee_id, company_id := re.company_id,
             first_name := re.first_name, last_name := re.last_name,
             email := re.email, hire_date := re.hire_date,
             salary := re.salary.getD 0, is_active := re.is_active.getD true },
           by simp [GeneratedFile.create_employee, parseEmployeeCreate, hc], rfl⟩
  · intro c hc
    exact ⟨{ id := db.next_employee_id, company_id := re.company_id,
             first_name := re.first_name, last_name := re.last_name,
             email := re.email, hire_date := re.hire_date,
             salary := re.salary.getD 0, is_active := re.is_active.getD true },
           by simp [ConvertedFile.create_employee, parseEmployeeCreate, hc], rfl⟩

/-- Witness for C6 (amended): concrete creations on the sample stores. -/
theorem create_status_amended_witness :
    (InputFile.create_company dbEmpty reqCompany).1.1 = 201 ∧
    (ConvertedFile.create_company dbEmpty reqCompany).1.1 = 200 ∧
    ∃ emp, (GeneratedFile.create_employee dbSample reqEmployee).1 = .ok (201, emp) ∧
      emp.id = dbSample.next_employee_id :=
  ⟨(create_status_amended dbEmpty reqCompany reqEmployee).2.2.1,
   (create_status_amended dbEmpty reqCompany reqEmployee).2.2.2.2.2.2.2.1,
   (create_status_amended dbSample reqCompany reqEmployee).2.2.2.2.2.2.1 acme rfl⟩

/-- Counterexample for C6 as stated: in the converted_file variant a
successful company creation returns status 200, not 201. -/
theorem create_status_counterexample :
    (ConvertedFile.create_company dbEmpty reqCompany).1.1 = 200 ∧
    (ConvertedFile.create_company dbEmpty reqCompany).1.1 ≠ 201 := by
  decide

/-- C7: In the converted_file variant, creating a company and then fetching
it by the id returned from creation yields exactly the record the create
operation returned (provided, as autoincrement guarantees, that no stored
company already carries the next id). -/
theorem create_company_get_roundtrip (db : DB) (r : CompanyCreateReq)
    (hfresh : ∀ c ∈ db.companies, c.id < db.next_company_id) :
    ConvertedFile.get_company (ConvertedFile.create_company db r).2
        (ConvertedFile.create_company db r).1.2.id =
      .ok (200, (ConvertedFile.create_company db r).1.2) := by
  have hnone :
      db.companies.find? (fun c => c.id == db.next_company_id) = none := by
    rw [List.find?_eq_none]
    intro x hx
    simp only [beq_iff_eq]
    exact Nat.ne_of_lt (hfresh x hx)
  simp only [ConvertedFile.create_company, ConvertedFile.get_company,
    parseCompanyCreate, findCompany]
  rw [find?_append_of_none _ hnone]
  simp [List.find?]

/-- Witness for C7: the round trip on the sample store (whose company ids 1
and 2 are below the counter 3). -/
theorem create_company_get_roundtrip_witness :
    (∀ c ∈ dbSample.companies, c.id < dbSample.next_company_id) ∧
    ConvertedFile.get_company (ConvertedFile.create_company dbSample reqCompany).2
        (ConvertedFile.create_company dbSample reqCompany).1.2.id =
      .ok (200, (ConvertedFile.create_company dbSample reqCompany).1.2) :=
  ⟨by decide, create_company_get_roundtrip dbSample reqCompany (by decide)⟩

/-- C8: an employee-creation request that omits salary and is_active is
persisted and returned with the schema defaults salary = 0.00 and
is_active = true (script variant unconditionally; converted variant once the
referenced company exists). -/
theorem employee_create_defaults (db : DB) (r : EmployeeCreateReq)
    (hs : r.salary = none) (ha : r.is_active = none) :
    ((ScriptFile.create_employee db r).1.2.salary = 0 ∧
     (ScriptFile.create_employee db r).1.2.is_active = true ∧
     (ScriptFile.create_employee db r).2.employees =
       db.employees ++ [(ScriptFile.create_employee db r).1.2]) ∧
    (∀ c, findCompany db r.company_id = some c →
      ∃ emp, (ConvertedFile.create_employee db r).1 = .ok (200, emp) ∧
        emp.salary = 0 ∧ emp.is_active = true ∧
        (ConvertedFile.create_employee db r).2.employees =
          db.employees ++ [emp]) := by
  constructor
  · exact ⟨by simp [ScriptFile.create_employee, parseEmployeeCreate, hs],
           by simp [ScriptFile.create_employee, parseEmployeeCreate, ha],
           by simp [ScriptFile.create_employee, parseEmployeeCreate]⟩
  · intro c hc
    refine ⟨{ id := db.next_employee_id, company_id := r.company_id,
              first_name := r.first_name, last_name := r.last_name,
              email := r.email, hire_date := r.hire_date,
              salary := r.salary.getD 0, is_active := r.is_active.getD true },
            ?_, ?_, ?_, ?_⟩ <;>
      simp [ConvertedFile.create_employee, parseEmployeeCreate, hc, hs, ha]

/-- Witness for C8: the spec's worked example — employee A B of company 1,
no salary or is_active supplied — comes back with salary 0 and
is_active true. -/
theorem employee_create_defaults_witness :
    (ScriptFile.create_employee dbSample reqEmployee).1.2.salary = 0 ∧
    ∃ emp, (ConvertedFile.create_employee dbSample reqEmployee).1 = .ok (200, emp) ∧
      emp.salary = 0 ∧ emp.is_active = true ∧
      (ConvertedFile.create_employee dbSample reqEmployee).2.employees =
        dbSample.employees ++ [emp] :=
  ⟨(employee_create_defaults dbSample reqEmployee rfl rfl).1.1,
   (employee_create_defaults dbSample reqEmployee rfl rfl).2 acme rfl⟩

/-- C9: the parameterless list endpoints of the paginated variants return at
most the default limit of records — 10 in converted_file, 100 in
generated_file — so whenever the store holds more rows than that limit, the
result returns strictly fewer records than are stored. -/
theorem list_default_limit (db : DB) :
    (ConvertedFile.list_companies_no_params db).length ≤ 10 ∧
    (ConvertedFile.list_employees_no_params db).length ≤ 10 ∧
    (GeneratedFile.read_companies_no_params db).length ≤ 100 ∧
    (GeneratedFile.read_employees_no_params db).length ≤ 100 ∧
    (10 < db.companies.length →
      (ConvertedFile.list_companies_no_params db).length < db.companies.length) ∧
    (10 < db.employees.length →
      (ConvertedFile.list_employees_no_params db).length < db.employees.length) ∧
    (100 < db.companies.length →
      (GeneratedFile.read_companies_no_params db).length < db.companies.length) ∧
    (100 < db.employees.length →
      (GeneratedFile.read_employees_no_params db).length < db.employees.length) := by
  simp only [ConvertedFile.list_companies_no_params, ConvertedFile.list_companies,
    ConvertedFile.list_employees_no_params, ConvertedFile.list_employees,
    GeneratedFile.read_companies_no_params, GeneratedFile.read_companies,
    GeneratedFile.read_employees_no_params, GeneratedFile.read_employees,
    List.drop_zero, List.length_take]
  omega

/-- Witness for C9: the store with eleven companies lists only ten of them
through the parameterless converted_file endpoint. -/
theorem list_default_limit_witness :
    10 < dbEleven.companies.length ∧
    (ConvertedFile.list_companies_no_params dbEleven).length <
      dbEleven.companies.length :=
  ⟨by decide, (list_default_limit dbEleven).2.2.2.2.1 (by decide)⟩

/-- C2: In the converted_file variant (whose Company.employees relationship
declares the delete cascade), deleting an existing company removes that
company and every employee whose company_id references it — and only
those — after which fetching any removed employee by id signals NotFound
(given the primary-key uniqueness of employee ids), and the
referential-integrity invariant is preserved. -/
theorem delete_company_cascades (db : DB) (cid : Nat) (c : Company)
    (hc : findCompany db cid = some c)
    (hnd : (db.employees.map Employee.id).Nodup) :
    (ConvertedFile.delete_company db cid).1 = .ok (200, "Company deleted") ∧
    findCompany (ConvertedFile.delete_company db cid).2 cid = none ∧
    (∀ e ∈ (ConvertedFile.delete_company db cid).2.employees,
      e.company_id ≠ cid) ∧
    (∀ e ∈ db.employees, e.company_id ≠ cid →
      e ∈ (ConvertedFile.delete_company db cid).2.employees) ∧
    (∀ e ∈ db.employees, e.company_id = cid →
      ConvertedFile.get_employee (ConvertedFile.delete_company db cid).2 e.id =
        .error ⟨404, "Employee not found"⟩) ∧
    (db.refIntegrity → (ConvertedFile.delete_company db cid).2.refIntegrity) := by
  simp only [ConvertedFile.delete_company, hc]
  refine ⟨trivial, ?_, ?_, ?_, ?_, ?_⟩
  · simp only [findCompany]
    rw [List.find?_eq_none]
    intro x hx
    rw [List.mem_filter] at hx
    simpa using hx.2
  · intro e he
    rw [List.mem_filter] at he
    simpa using he.2
  · intro e he hne
    rw [List.mem_filter]
    exact ⟨he, by simpa using hne⟩
  · intro e he hecid
    simp only [ConvertedFile.get_employee, findEmployee]
    have hgone :
        (db.employees.filter (fun x => x.company_id != cid)).find?
          (fun x => x.id == e.id) = none := by
      rw [List.find?_eq_none]
      intro x hx
      rw [List.mem_filter] at hx
      have hxid : x.id ≠ e.id := by
        intro hxe
        have hx_eq : x = e := List.inj_on_of_nodup_map hnd hx.1 he hxe
        rw [hx_eq] at hx
        simp [hecid] at hx
      simpa using hxid
    rw [hgone]
  · intro hri e he
    rw [List.mem_filter] at he
    obtain ⟨c0, hc0mem, hc0id⟩ := hri e he.1
    refine ⟨c0, ?_, hc0id⟩
    rw [List.mem_filter]
    refine ⟨hc0mem, ?_⟩
    have hne : c0.id ≠ cid := by
      rw [hc0id]
      simpa using he.2
    simpa using hne

/-- Witness for C2: deleting company 2 of the sample store (which exists,
and whose employee ids 1,2,3 are distinct) removes employee 2, whose
subsequent fetch yields 404, and keeps referential integrity. -/
theorem delete_company_cascades_witness :
    findCompany dbSample 2 = some bcorp ∧
    ConvertedFile.get_employee (ConvertedFile.delete_company dbSample 2).2 2 =
      .error ⟨404, "Employee not found"⟩ ∧
    (ConvertedFile.delete_company dbSample 2).2.refIntegrity :=
  ⟨rfl,
   (delete_company_cascades dbSample 2 bcorp rfl (by decide)).2.2.2.2.1
     emp2 (by decide) rfl,
   (delete_company_cascades dbSample 2 bcorp rfl (by decide)).2.2.2.2.2
     (by unfold DB.refIntegrity; decide)⟩
